import Mathlib

/-
Verification development for the mcprivy backend worker
(src/mcprivy-backend/src/index.ts).

The worker accepts a WebSocket upgrade at /ws, verifies a Privy bearer
token, resolves (finds or creates) an Ethereum wallet for the verified
user, stores the wallet id in a process-wide map keyed by the server
socket, and relays signPersonalMessage requests to the Privy wallet API.

The shallow embedding below models:
  * the asynchronous authentication/resolution IIFE (lines 86-287) as the
    pure function `resolve`, parameterised by the outcomes of the three
    external interactions (token verification, the linked-accounts lookup
    fetch, and the create-wallet fetch);
  * the message event listener (lines 290-351) as the pure function
    `handleMessage`, parameterised by the outcome of the upstream
    signMessage call;
  * the process-wide `wsState` map (line 16) as an association list with
    the close handler (lines 353-356, which deletes the entry) and the
    error handler (lines 358-360, which only logs).
-/

namespace MCPrivy

/-- Per-connection state stored in the `wsState` map (source lines 12-14). -/
structure WebSocketState where
  walletId : String
  deriving DecidableEq, Repr

/-- One entry of `userData.linked_accounts` as typed at source lines 128-136.
`address`, `chain_type` and `id` are optional fields; `none` models a JS
field that is absent/undefined. -/
structure Account where
  type : String
  address : Option String
  chain_type : Option String
  id : Option String
  deriving DecidableEq, Repr

/-- The body of the users lookup response (source lines 128-136). -/
structure UserData where
  linked_accounts : List Account
  deriving DecidableEq, Repr

/-- The body of a successful create-wallet response (source lines 181, 242). -/
structure WalletData where
  id : String
  address : String
  deriving DecidableEq, Repr

/-- Outcome of one `fetch` call: `ok` (res.ok true, parsed body), `notOk`
(res.ok false, with status and the text body read by `res.text()`), or
`throws` (the fetch or body parsing threw, carrying the stringified
error). -/
inductive FetchResult (α : Type) where
  | ok (body : α)
  | notOk (status : Nat) (errorText : String)
  | throws (error : String)
  deriving DecidableEq, Repr

instance {α β : Type} [DecidableEq α] [DecidableEq β] : DecidableEq (Except α β) := fun a b =>
  match a, b with
  | Except.error x, Except.error y =>
    if h : x = y then isTrue (by rw [h]) else isFalse (by intro hc; cases hc; exact h rfl)
  | Except.error _, Except.ok _ => isFalse (by intro hc; cases hc)
  | Except.ok _, Except.error _ => isFalse (by intro hc; cases hc)
  | Except.ok x, Except.ok y =>
    if h : x = y then isTrue (by rw [h]) else isFalse (by intro hc; cases hc; exact h rfl)

/-- The outcomes of the external interactions one run of the
authentication/resolution IIFE can perform: token verification
(`Except.error` models `verifyAuthToken` throwing, `Except.ok` carries
`verificationResult.userId`), the linked-accounts lookup fetch, and the
create-wallet fetch. The create-wallet fetch is consumed at most once per
run, so a single outcome suffices. -/
structure ResolutionEnv where
  verify : Except String String
  userDataRes : FetchResult UserData
  createWalletRes : FetchResult WalletData
  deriving DecidableEq, Repr

/-- A JSON envelope sent server-to-client. Notifications carry their fixed
string id through the constructor name (`welcome`, `wallet_found`,
`wallet_created`, `errorNotif` for id "error"); `response` carries the
numeric id echoed from a client request together with either a result
(`Except.ok`) or an error string (`Except.error`). -/
inductive ServerMsg where
  | welcome (message user : String)
  | wallet_found (walletId address : String) (isNew : Bool) (message : String)
  | wallet_created (walletId address : String) (isNew : Bool) (message : String)
  | errorNotif (error : String)
  | response (id : Nat) (payload : Except String String)
  deriving DecidableEq, Repr

/-- The welcome envelope sent right after token verification succeeds
(source lines 96-101). -/
def welcomeMsg (userId : String) : ServerMsg :=
  ServerMsg.welcome "Connected to MCPrivy server! Authentication successful." userId

/-- Predicate of the `find` call at source lines 143-145: the first linked
account with `type === "wallet"` and `chain_type === "ethereum"`. -/
def isEthereumWallet (a : Account) : Bool :=
  a.type == "wallet" && a.chain_type == some "ethereum"

/-- The human-readable message field of the wallet_created envelope: the
primary create branch (source line 195) and the fallback branch taken when
the lookup returned non-ok (source line 253) differ only in this text. -/
def createdMessage (fallback : Bool) : String :=
  if fallback then "Fallback wallet created. Session signer will be added automatically."
  else "New wallet created. Session signer will be added automatically."

/-- Everything observable about one run of the resolution IIFE: the
envelopes sent on the socket in order, the entry stored by
`wsState.set(serverWs, ...)` at line 277 (`none` when control never
reaches it because the outer catch fired), how many times the
create-wallet fetch was issued, and whether the server closed the socket
(no code path of the IIFE calls `serverWs.close()`, so this is false in
every branch). -/
structure ResolveOutcome where
  msgs : List ServerMsg
  registered : Option WebSocketState
  createCalls : Nat
  closed : Bool
  deriving DecidableEq, Repr

/-- The create-wallet flow shared by the no-existing-wallet branch (source
lines 163-216, `fallback := false`) and the lookup-failed fallback branch
(source lines 226-273, `fallback := true`). On non-ok status or on a
thrown error it sends an id "error" envelope, and in both failure cases
control falls through to `wsState.set` at line 277 with `walletId` still
holding its initialiser "temp-wallet-id" (line 124). -/
def createFlow (w : ServerMsg) (fallback : Bool) (res : FetchResult WalletData) :
    ResolveOutcome :=
  match res with
  | FetchResult.ok wd =>
    { msgs := [w, ServerMsg.wallet_created wd.id wd.address true (createdMessage fallback)]
      registered := some ⟨wd.id⟩
      createCalls := 1
      closed := false }
  | FetchResult.notOk _ errText =>
    { msgs := [w, ServerMsg.errorNotif ("Wallet creation failed: " ++ errText)]
      registered := some ⟨"temp-wallet-id"⟩
      createCalls := 1
      closed := false }
  | FetchResult.throws e =>
    { msgs := [w, ServerMsg.errorNotif ("Wallet creation error: " ++ e)]
      registered := some ⟨"temp-wallet-id"⟩
      createCalls := 1
      closed := false }

/-- The asynchronous authentication/resolution IIFE (source lines 86-287).
Branch by branch:
  * `verifyAuthToken` throws: the outer catch (lines 279-286) sends the
    "Authentication failed" envelope; `wsState.set` is never reached and
    the socket is not closed.
  * verification ok: the welcome envelope is sent (lines 96-101), then the
    linked-accounts lookup runs.
  * lookup throws: the outer catch fires after the welcome was sent.
  * lookup ok: `linked_accounts.find` (lines 143-145) looks for the first
    Ethereum wallet account; the guard at line 148 additionally requires
    truthy `id` and `address` (a missing field or empty string fails it in
    JS). On success the wallet_found envelope is sent and that id is
    stored; otherwise the create flow runs (lines 163-216).
  * lookup non-ok: the fallback create flow runs (lines 217-274) without
    any error envelope for the lookup itself.
In every branch of the ok-verification path that does not throw to the
outer catch, control reaches `wsState.set(serverWs, { walletId })` at
line 277. -/
def resolve (env : ResolutionEnv) : ResolveOutcome :=
  match env.verify with
  | Except.error e =>
    { msgs := [ServerMsg.errorNotif ("Authentication failed: " ++ e)]
      registered := none
      createCalls := 0
      closed := false }
  | Except.ok userId =>
    let w := welcomeMsg userId
    match env.userDataRes with
    | FetchResult.throws e =>
      { msgs := [w, ServerMsg.errorNotif ("Authentication failed: " ++ e)]
        registered := none
        createCalls := 0
        closed := false }
    | FetchResult.ok userData =>
      match userData.linked_accounts.find? isEthereumWallet with
      | some acct =>
        match acct.id, acct.address with
        | some wid, some waddr =>
          if wid != "" && waddr != "" then
            { msgs := [w, ServerMsg.wallet_found wid waddr false
                "Connected to existing wallet. Make sure session signer is added on the frontend."]
              registered := some ⟨wid⟩
              createCalls := 0
              closed := false }
          else createFlow w false env.createWalletRes
        | _, _ => createFlow w false env.createWalletRes
      | none => createFlow w false env.createWalletRes
    | FetchResult.notOk _ _ => createFlow w true env.createWalletRes

/-- A parsed inbound client envelope `{id, method, params}`. `params` is
`none` when the field is absent (then `msg.params[0]` at source line 308
throws a TypeError caught by the outer catch). -/
structure InboundMsg where
  id : Nat
  method : String
  params : Option (List String)
  deriving DecidableEq, Repr

/-- Raw inbound data: either text `JSON.parse` rejects (source line 292
throws, carrying the stringified parse error) or a parsed envelope. -/
inductive RawInbound where
  | unparsable (parseError : String)
  | parsed (msg : InboundMsg)
  deriving DecidableEq, Repr

/-- Outcome of the upstream `privy.walletApi.ethereum.signMessage` call
(source lines 313-317) as a function of the wallet id and the message
parameter (`none` models `undefined` when `params` was empty):
`Except.ok` carries the signature, `Except.error` the thrown error. -/
def SignOracle : Type := String → Option String → Except String String

/-- The message event listener (source lines 290-351), returning the single
envelope it sends. Order of checks mirrors the source: JSON.parse first
(line 292), then the `wsState.get` guard (lines 295-303), then method
dispatch (line 307), then `msg.params[0]` (line 308, outside the inner
try, so a missing params field reaches the outer catch whose envelope has
the literal id 1, lines 343-350). The listener never calls
`serverWs.close()`, so the connection stays open in every case. -/
def handleMessage (state : Option WebSocketState) (sign : SignOracle)
    (raw : RawInbound) : ServerMsg :=
  match raw with
  | RawInbound.unparsable pe =>
    ServerMsg.response 1 (Except.error ("Internal server error: " ++ pe))
  | RawInbound.parsed msg =>
    match state with
    | none => ServerMsg.response msg.id (Except.error "WebSocket not properly initialized")
    | some st =>
      if msg.method == "signPersonalMessage" then
        match msg.params with
        | none =>
          ServerMsg.response 1
            (Except.error "Internal server error: Cannot read properties of undefined")
        | some params =>
          match sign st.walletId params.head? with
          | Except.ok signature => ServerMsg.response msg.id (Except.ok signature)
          | Except.error e =>
            ServerMsg.response msg.id (Except.error ("Sign failed: " ++ e))
      else
        ServerMsg.response msg.id (Except.error ("Unknown method: " ++ msg.method))

/-- The process-wide `wsState` map (source line 16), keyed by the server
socket, modelled as an association list over opaque socket handles. -/
def WsMap : Type := List (Nat × WebSocketState)

/-- `wsState.get(serverWs)` (source line 295). -/
def wsGet (m : WsMap) (ws : Nat) : Option WebSocketState :=
  match List.find? (fun p => p.1 == ws) m with
  | some p => some p.2
  | none => none

/-- `wsState.delete(serverWs)` (source line 355). -/
def wsDelete (m : WsMap) (ws : Nat) : WsMap :=
  List.filter (fun p => p.1 != ws) m

/-- The close event listener (source lines 353-356): logs and deletes the
entry for this socket. -/
def onCloseEvent (m : WsMap) (ws : Nat) : WsMap := wsDelete m ws

/-- The error event listener (source lines 358-360): it only logs; it does
not touch the map. -/
def onErrorEvent (m : WsMap) (_ws : Nat) : WsMap := m

/-- A sign oracle that always succeeds with a fixed signature, standing in
for an upstream service that accepts the relayed call. -/
def signStub : SignOracle := fun _ _ => Except.ok "0xdeadbeef"

/-- Concrete run where token verification throws. -/
def envC3 : ResolutionEnv :=
  ⟨Except.error "invalid auth token", FetchResult.throws "unused", FetchResult.throws "unused"⟩

/-- Deleting a socket entry makes the subsequent lookup of that socket fail. -/
lemma wsGet_wsDelete (m : WsMap) (ws : Nat) : wsGet (wsDelete m ws) ws = none := by
  induction m with
  | nil => rfl
  | cons p t ih =>
    by_cases h : p.1 = ws
    · have hf : (p.1 != ws) = false := by simp [h]
      simpa [wsDelete, List.filter_cons, hf] using ih
    · have ht : (p.1 != ws) = true := by simp [h]
      have hbe : (p.1 == ws) = false := by simp [h]
      simp only [wsDelete, List.filter_cons, ht, if_true] at *
      simpa [wsGet, List.find?_cons, hbe] using ih

/-- C5: a signing request that arrives before wallet resolution has stored
any state for this connection is answered with an error response carrying
the request's own id, and never with a result. -/
theorem C5_sign_before_resolution_errors (sign : SignOracle) (msg : InboundMsg) :
    handleMessage none sign (RawInbound.parsed msg) =
      ServerMsg.response msg.id (Except.error "WebSocket not properly initialized") := rfl

/-- C8: every parsed inbound request whose method is not
signPersonalMessage is answered with an error response whose id equals the
request's id, whatever the session state and sign oracle; the handler
sends an application-level reply and never closes the transport. -/
theorem C8_unknown_method_correlated_error (state : Option WebSocketState)
    (sign : SignOracle) (msg : InboundMsg)
    (h : msg.method ≠ "signPersonalMessage") :
    ∃ e, handleMessage state sign (RawInbound.parsed msg) =
      ServerMsg.response msg.id (Except.error e) := by
  cases state with
  | none => exact ⟨"WebSocket not properly initialized", rfl⟩
  | some st =>
    refine ⟨"Unknown method: " ++ msg.method, ?_⟩
    simp [handleMessage, h]

/-- Witness for C8 at the concrete request id 5, method "foo". -/
theorem C8_witness :
    (InboundMsg.mk 5 "foo" none).method ≠ "signPersonalMessage" ∧
    ∃ e, handleMessage (some ⟨"w1"⟩) signStub (RawInbound.parsed ⟨5, "foo", none⟩) =
      ServerMsg.response 5 (Except.error e) :=
  ⟨by decide, C8_unknown_method_correlated_error (some ⟨"w1"⟩) signStub ⟨5, "foo", none⟩ (by decide)⟩

/-- C7 counterexample: a signPersonalMessage request with id 42 and a
missing params field throws at `msg.params[0]`, is caught at the handler
boundary, and is answered with the hardcoded id 1 — not the originating
request's id 42. -/
theorem C7_counterexample :
    handleMessage (some ⟨"w1"⟩) signStub (RawInbound.parsed ⟨42, "signPersonalMessage", none⟩) =
      ServerMsg.response 1
        (Except.error "Internal server error: Cannot read properties of undefined") ∧
    (42 : Nat) ≠ 1 :=
  ⟨rfl, by decide⟩

/-- C7 amended: every unexpected error thrown while handling an inbound
message (unparsable JSON, or a missing params field on a
signPersonalMessage request) is caught at the message-handler boundary and
reported as an error response with the fixed id 1, not the originating
request's id; the handler neither crashes nor closes the connection. -/
theorem C7_internal_errors_fixed_id (state : Option WebSocketState) (sign : SignOracle)
    (pe : String) (st : WebSocketState) (n : Nat) :
    handleMessage state sign (RawInbound.unparsable pe) =
      ServerMsg.response 1 (Except.error ("Internal server error: " ++ pe)) ∧
    handleMessage (some st) sign (RawInbound.parsed ⟨n, "signPersonalMessage", none⟩) =
      ServerMsg.response 1
        (Except.error "Internal server error: Cannot read properties of undefined") := by
  constructor
  · cases state with
    | none => rfl
    | some st => rfl
  · rfl

/-- C4 counterexample: after a transport error event on socket 0, the
session entry for socket 0 is still in the map and the lookup still
succeeds — the error listener only logs. -/
theorem C4_counterexample :
    onErrorEvent [(0, ⟨"w1"⟩)] 0 = [(0, ⟨"w1"⟩)] ∧
    wsGet (onErrorEvent [(0, ⟨"w1"⟩)] 0) 0 = some ⟨"w1"⟩ :=
  ⟨rfl, rfl⟩

/-- C4 amended: a transport close event removes the session entry from the
shared map, so a subsequent lookup by the same connection handle fails; a
transport error event leaves the map unchanged (the error listener only
logs). -/
theorem C4_close_removes_error_does_not (m : WsMap) (ws : Nat) :
    wsGet (onCloseEvent m ws) ws = none ∧ onErrorEvent m ws = m :=
  ⟨wsGet_wsDelete m ws, rfl⟩

/-- C3 counterexample: with a token the verifier rejects, no session is
registered and the error envelope is sent, but the server never closes the
connection (no code path of the worker calls close), contradicting the
claim that the connection is closed immediately after the error message. -/
theorem C3_counterexample :
    (resolve envC3).registered = none ∧
    (resolve envC3).msgs = [ServerMsg.errorNotif "Authentication failed: invalid auth token"] ∧
    (resolve envC3).closed = false :=
  ⟨rfl, rfl, rfl⟩

/-- C3 amended: for every connection whose bearer token fails verification
after the upgrade, no session is registered and a structured error message
is sent on the open channel, but the server does not close the
connection. -/
theorem C3_failed_auth_no_session (env : ResolutionEnv) (e : String)
    (hv : env.verify = Except.error e) :
    (resolve env).registered = none ∧
    (resolve env).msgs = [ServerMsg.errorNotif ("Authentication failed: " ++ e)] ∧
    (resolve env).closed = false := by
  simp [resolve, hv]

/-- Witness for the amended C3 at the concrete rejected token run. -/
theorem C3_witness :
    envC3.verify = Except.error "invalid auth token" ∧
    ((resolve envC3).registered = none ∧
     (resolve envC3).msgs = [ServerMsg.errorNotif "Authentication failed: invalid auth token"] ∧
     (resolve envC3).closed = false) :=
  ⟨rfl, C3_failed_auth_no_session envC3 "invalid auth token" rfl⟩

/-- True iff the envelope is the welcome notification. -/
def isWelcome : ServerMsg → Bool
  | ServerMsg.welcome _ _ => true
  | _ => false

/-- A linked wallet account matching the Ethereum filter but carrying no id
field (as an externally linked wallet does). -/
def acctNoId : Account := ⟨"wallet", some "0xaaa", some "ethereum", none⟩

/-- A linked wallet account matching the Ethereum filter with both id and
address present. -/
def acctFull : Account := ⟨"wallet", some "0xbbb", some "ethereum", some "wid2"⟩

/-- Concrete run for C2: the identity has two linked Ethereum wallet
accounts, the first without an id, the second complete. -/
def envC2 : ResolutionEnv :=
  ⟨Except.ok "did:privy:u1", FetchResult.ok ⟨[acctNoId, acctFull]⟩,
    FetchResult.ok ⟨"newW", "0xnew"⟩⟩

/-- Concrete run for the amended C2: the sole linked account is complete. -/
def envC2w : ResolutionEnv :=
  ⟨Except.ok "u2", FetchResult.ok ⟨[acctFull]⟩, FetchResult.throws "unused"⟩

/-- Concrete run for C1: lookup succeeds with no linked wallet, the
create-wallet call returns a non-success status. -/
def envC1 : ResolutionEnv :=
  ⟨Except.ok "u1", FetchResult.ok ⟨[]⟩, FetchResult.notOk 500 "quota exceeded"⟩

/-- Concrete run where the linked-accounts lookup fetch throws. -/
def envC1A : ResolutionEnv :=
  ⟨Except.ok "uA", FetchResult.throws "network down", FetchResult.throws "unused"⟩

/-- Concrete run for C6: lookup succeeds with no linked accounts at all and
the create-wallet call succeeds. -/
def envC6 : ResolutionEnv :=
  ⟨Except.ok "u6", FetchResult.ok ⟨[]⟩, FetchResult.ok ⟨"w6", "0x6"⟩⟩

/-- Concrete run for C9: token verifies but the lookup fetch throws. -/
def envC9 : ResolutionEnv :=
  ⟨Except.ok "u9", FetchResult.throws "network down", FetchResult.throws "unused"⟩

/-- Concrete well-behaved run for the amended C9. -/
def envC9w : ResolutionEnv :=
  ⟨Except.ok "u9", FetchResult.ok ⟨[]⟩, FetchResult.ok ⟨"w9", "0x9"⟩⟩

/-- Concrete run for C10: the lookup returns non-success and the fallback
create-wallet call succeeds. -/
def envC10 : ResolutionEnv :=
  ⟨Except.ok "u10", FetchResult.notOk 500 "server error", FetchResult.ok ⟨"w10", "0xten"⟩⟩

/-- C2 counterexample: the identity has a linked Ethereum wallet account
with id and address present (acctFull), yet resolution issues the
create-wallet call and registers the newly created wallet — because the
find call consults only the first matching account, which lacks an id. -/
theorem C2_counterexample :
    envC2.userDataRes = FetchResult.ok ⟨[acctNoId, acctFull]⟩ ∧
    acctFull.type = "wallet" ∧ acctFull.chain_type = some "ethereum" ∧
    acctFull.id = some "wid2" ∧ acctFull.address = some "0xbbb" ∧
    (resolve envC2).createCalls = 1 ∧
    (resolve envC2).registered = some ⟨"newW"⟩ :=
  ⟨rfl, rfl, rfl, rfl, rfl, rfl, rfl⟩

/-- C2 amended: whenever the first linked account matching type wallet and
chain_type ethereum has a non-empty id and a non-empty address, resolution
adopts that account's id and address, sends wallet_found with isNew false,
and never issues the create-wallet call. -/
theorem C2_first_match_reused (env : ResolutionEnv) (u : String) (ud : UserData)
    (a : Account) (wid waddr : String)
    (hv : env.verify = Except.ok u)
    (hres : env.userDataRes = FetchResult.ok ud)
    (hfind : ud.linked_accounts.find? isEthereumWallet = some a)
    (hid : a.id = some wid) (haddr : a.address = some waddr)
    (hwid : wid ≠ "") (hwaddr : waddr ≠ "") :
    (resolve env).createCalls = 0 ∧
    (resolve env).msgs = [welcomeMsg u, ServerMsg.wallet_found wid waddr false
      "Connected to existing wallet. Make sure session signer is added on the frontend."] ∧
    (resolve env).registered = some ⟨wid⟩ := by
  have h1 : (wid != "") = true := by simp [hwid]
  have h2 : (waddr != "") = true := by simp [hwaddr]
  simp [resolve, hv, hres, hfind, hid, haddr, h1, h2]

/-- Witness for the amended C2 at the concrete single-account run. -/
theorem C2_witness :
    envC2w.verify = Except.ok "u2" ∧
    envC2w.userDataRes = FetchResult.ok ⟨[acctFull]⟩ ∧
    (⟨[acctFull]⟩ : UserData).linked_accounts.find? isEthereumWallet = some acctFull ∧
    acctFull.id = some "wid2" ∧ acctFull.address = some "0xbbb" ∧
    ("wid2" : String) ≠ "" ∧ ("0xbbb" : String) ≠ "" ∧
    ((resolve envC2w).createCalls = 0 ∧
     (resolve envC2w).msgs = [welcomeMsg "u2", ServerMsg.wallet_found "wid2" "0xbbb" false
       "Connected to existing wallet. Make sure session signer is added on the frontend."] ∧
     (resolve envC2w).registered = some ⟨"wid2"⟩) :=
  ⟨rfl, rfl, rfl, rfl, rfl, by decide, by decide,
    C2_first_match_reused envC2w "u2" ⟨[acctFull]⟩ acctFull "wid2" "0xbbb"
      rfl rfl rfl rfl rfl (by decide) (by decide)⟩

/-- C6: when the lookup succeeds and no linked account is an Ethereum
wallet, resolution issues the create-wallet call exactly once, and when
that call succeeds it sends wallet_created with isNew true and registers
the new wallet id. -/
theorem C6_no_wallet_creates_once (env : ResolutionEnv) (u : String) (ud : UserData)
    (hv : env.verify = Except.ok u)
    (hres : env.userDataRes = FetchResult.ok ud)
    (hnone : ∀ a ∈ ud.linked_accounts, ¬(a.type = "wallet" ∧ a.chain_type = some "ethereum")) :
    (resolve env).createCalls = 1 ∧
    ∀ wd, env.createWalletRes = FetchResult.ok wd →
      (resolve env).msgs = [welcomeMsg u, ServerMsg.wallet_created wd.id wd.address true
        "New wallet created. Session signer will be added automatically."] ∧
      (resolve env).registered = some ⟨wd.id⟩ := by
  have hfind : ud.linked_accounts.find? isEthereumWallet = none := by
    rw [List.find?_eq_none]
    intro a ha hp
    have hnp := hnone a ha
    simp only [isEthereumWallet, Bool.and_eq_true, beq_iff_eq] at hp
    exact hnp hp
  constructor
  · cases hcw : env.createWalletRes <;>
      simp [resolve, createFlow, hv, hres, hfind, hcw]
  · intro wd hcw
    simp [resolve, createFlow, hv, hres, hfind, hcw, createdMessage]

/-- Witness for C6 at the concrete empty-accounts run. -/
theorem C6_witness :
    envC6.verify = Except.ok "u6" ∧
    envC6.userDataRes = FetchResult.ok ⟨[]⟩ ∧
    (∀ a ∈ (⟨[]⟩ : UserData).linked_accounts,
      ¬(a.type = "wallet" ∧ a.chain_type = some "ethereum")) ∧
    ((resolve envC6).createCalls = 1 ∧
     ∀ wd, envC6.createWalletRes = FetchResult.ok wd →
       (resolve envC6).msgs = [welcomeMsg "u6", ServerMsg.wallet_created wd.id wd.address true
         "New wallet created. Session signer will be added automatically."] ∧
       (resolve envC6).registered = some ⟨wd.id⟩) :=
  ⟨rfl, rfl, by simp, C6_no_wallet_creates_once envC6 "u6" ⟨[]⟩ rfl rfl (by simp)⟩

/-- C10: when the lookup returns a non-success status, resolution does not
stop with an error notification but falls back to the create-wallet call;
when that call succeeds it sends wallet_created with isNew true and
registers the newly created wallet id — so a transient lookup failure can
provision a duplicate wallet. -/
theorem C10_lookup_failure_falls_back (env : ResolutionEnv) (u : String) (st : Nat)
    (et : String) (wd : WalletData)
    (hv : env.verify = Except.ok u)
    (hres : env.userDataRes = FetchResult.notOk st et)
    (hcw : env.createWalletRes = FetchResult.ok wd) :
    (resolve env).createCalls = 1 ∧
    (resolve env).msgs = [welcomeMsg u, ServerMsg.wallet_created wd.id wd.address true
      "Fallback wallet created. Session signer will be added automatically."] ∧
    (resolve env).registered = some ⟨wd.id⟩ := by
  simp [resolve, createFlow, hv, hres, hcw, createdMessage]

/-- Witness for C10 at the concrete failed-lookup run. -/
theorem C10_witness :
    envC10.verify = Except.ok "u10" ∧
    envC10.userDataRes = FetchResult.notOk 500 "server error" ∧
    envC10.createWalletRes = FetchResult.ok ⟨"w10", "0xten"⟩ ∧
    ((resolve envC10).createCalls = 1 ∧
     (resolve envC10).msgs = [welcomeMsg "u10", ServerMsg.wallet_created "w10" "0xten" true
       "Fallback wallet created. Session signer will be added automatically."] ∧
     (resolve envC10).registered = some ⟨"w10"⟩) :=
  ⟨rfl, rfl, rfl, C10_lookup_failure_falls_back envC10 "u10" 500 "server error"
    ⟨"w10", "0xten"⟩ rfl rfl rfl⟩

/-- C9 counterexample: the token verifies successfully, yet no session is
ever registered, because the lookup fetch throws and the outer catch fires
before the wsState.set line is reached. -/
theorem C9_counterexample :
    envC9.verify = Except.ok "u9" ∧ (resolve envC9).registered = none :=
  ⟨rfl, rfl⟩

/-- C9 amended: for every connection whose token verifies successfully,
exactly one welcome notification is sent and it strictly precedes every
other envelope of the resolution path (the path sends exactly two); but a
session is registered under the connection handle if and only if the
linked-accounts lookup does not throw. -/
theorem C9_welcome_first_registration_iff (env : ResolutionEnv) (u : String)
    (hv : env.verify = Except.ok u) :
    (∃ m, (resolve env).msgs = [welcomeMsg u, m] ∧ isWelcome m = false) ∧
    ((resolve env).registered = none ↔ ∃ e, env.userDataRes = FetchResult.throws e) := by
  rcases hres : env.userDataRes with ud | ⟨s, t⟩ | e
  · rcases hfind : ud.linked_accounts.find? isEthereumWallet with _ | a
    · rcases hcw : env.createWalletRes with wd | ⟨s2, t2⟩ | e2 <;>
        simp [resolve, createFlow, hv, hres, hfind, hcw, isWelcome]
    · rcases hid : a.id with _ | wid
      · rcases hcw : env.createWalletRes with wd | ⟨s2, t2⟩ | e2 <;>
          simp [resolve, createFlow, hv, hres, hfind, hid, hcw, isWelcome]
      · rcases haddr : a.address with _ | waddr
        · rcases hcw : env.createWalletRes with wd | ⟨s2, t2⟩ | e2 <;>
            simp [resolve, createFlow, hv, hres, hfind, hid, haddr, hcw, isWelcome]
        · by_cases hw : (wid != "" && waddr != "") = true
          · simp [resolve, hv, hres, hfind, hid, haddr, hw, isWelcome]
          · rcases hcw : env.createWalletRes with wd | ⟨s2, t2⟩ | e2 <;>
              simp [resolve, createFlow, hv, hres, hfind, hid, haddr, hw, hcw, isWelcome]
  · rcases hcw : env.createWalletRes with wd | ⟨s2, t2⟩ | e2 <;>
      simp [resolve, createFlow, hv, hres, hcw, isWelcome]
  · simp [resolve, hv, hres, isWelcome]

/-- Witness for the amended C9 at the concrete well-behaved run. -/
theorem C9_witness :
    envC9w.verify = Except.ok "u9" ∧
    ((∃ m, (resolve envC9w).msgs = [welcomeMsg "u9", m] ∧ isWelcome m = false) ∧
     ((resolve envC9w).registered = none ↔ ∃ e, envC9w.userDataRes = FetchResult.throws e)) :=
  ⟨rfl, C9_welcome_first_registration_iff envC9w "u9" rfl⟩

/-- C1 counterexample: the lookup succeeds with no linked wallet and the
create-wallet call fails with a non-success status; an error envelope is
sent, yet the session is registered with the placeholder walletId
temp-wallet-id and a subsequent signing request is relayed upstream and
returns a result — not the session-not-initialized error the claim
requires. -/
theorem C1_counterexample :
    envC1.verify = Except.ok "u1" ∧
    envC1.createWalletRes = FetchResult.notOk 500 "quota exceeded" ∧
    (resolve envC1).msgs = [welcomeMsg "u1",
      ServerMsg.errorNotif "Wallet creation failed: quota exceeded"] ∧
    (resolve envC1).registered = some ⟨"temp-wallet-id"⟩ ∧
    handleMessage (resolve envC1).registered signStub
        (RawInbound.parsed ⟨7, "signPersonalMessage", some ["0x48656c6c6f"]⟩) =
      ServerMsg.response 7 (Except.ok "0xdeadbeef") :=
  ⟨rfl, rfl, rfl, rfl, rfl⟩

/-- C1 amended: when resolution throws to the outer catch (here: the
linked-accounts lookup fetch throws), an error envelope is sent, no
session state is registered, and every subsequent signing request fails
with the not-initialized error; but when the create-wallet call returns a
non-success status, the error envelope is sent and the session is
nonetheless registered with the placeholder walletId temp-wallet-id, so
subsequent signing requests are relayed upstream. -/
theorem C1_upstream_failure_paths (envA envB : ResolutionEnv) (uA uB e : String)
    (udB : UserData) (st : Nat) (et : String)
    (hvA : envA.verify = Except.ok uA)
    (hA : envA.userDataRes = FetchResult.throws e)
    (hvB : envB.verify = Except.ok uB)
    (hB : envB.userDataRes = FetchResult.ok udB)
    (hfindB : udB.linked_accounts.find? isEthereumWallet = none)
    (hcwB : envB.createWalletRes = FetchResult.notOk st et) :
    ((resolve envA).msgs = [welcomeMsg uA,
        ServerMsg.errorNotif ("Authentication failed: " ++ e)] ∧
     (resolve envA).registered = none ∧
     (∀ sign msg, handleMessage (resolve envA).registered sign (RawInbound.parsed msg) =
        ServerMsg.response msg.id (Except.error "WebSocket not properly initialized"))) ∧
    ((resolve envB).msgs = [welcomeMsg uB,
        ServerMsg.errorNotif ("Wallet creation failed: " ++ et)] ∧
     (resolve envB).registered = some ⟨"temp-wallet-id"⟩) := by
  have hreg : (resolve envA).registered = none := by simp [resolve, hvA, hA]
  refine ⟨⟨by simp [resolve, hvA, hA], hreg, ?_⟩,
    by simp [resolve, createFlow, hvB, hB, hfindB, hcwB]⟩
  intro sign msg
  rw [hreg]
  rfl

/-- Witness for the amended C1 at the two concrete failure runs. -/
theorem C1_witness :
    envC1A.verify = Except.ok "uA" ∧
    envC1A.userDataRes = FetchResult.throws "network down" ∧
    envC1.verify = Except.ok "u1" ∧
    envC1.userDataRes = FetchResult.ok ⟨[]⟩ ∧
    (⟨[]⟩ : UserData).linked_accounts.find? isEthereumWallet = none ∧
    envC1.createWalletRes = FetchResult.notOk 500 "quota exceeded" ∧
    (((resolve envC1A).msgs = [welcomeMsg "uA",
        ServerMsg.errorNotif "Authentication failed: network down"] ∧
      (resolve envC1A).registered = none ∧
      (∀ sign msg, handleMessage (resolve envC1A).registered sign (RawInbound.parsed msg) =
        ServerMsg.response msg.id (Except.error "WebSocket not properly initialized"))) ∧
     ((resolve envC1).msgs = [welcomeMsg "u1",
        ServerMsg.errorNotif "Wallet creation failed: quota exceeded"] ∧
      (resolve envC1).registered = some ⟨"temp-wallet-id"⟩)) :=
  ⟨rfl, rfl, rfl, rfl, rfl, rfl,
    C1_upstream_failure_paths envC1A envC1 "uA" "u1" "network down" ⟨[]⟩ 500 "quota exceeded"
      rfl rfl rfl rfl rfl rfl⟩

end MCPrivy
